import Mathlib

/-!
Verification of the geometry facade in `src/kharma/grid.hpp`.

Shallow embedding conventions:
* `Real`/`GReal` (floating point in the source) are modelled as `ℚ`, so the
  algebraic laws are exact.
* `NDIM = 4`; tensor indices are `Fin 4`; zone indices `i, j, k` are `ℤ`
  (C `int`), and the 1-D coordinate arrays are total functions `ℤ → ℚ`
  (out-of-range access is undefined behaviour in the source, mirrored here
  by totality of the modelled array).
* `Loci` is the 5-variant staggering enumeration (`NLOC = 5`); its exact
  underlying integer order is declared in `decs.hpp` (not in `src/`), but
  the initialization loop `for (loc = 0; loc < NLOC; ++loc)` visits all five
  variants and all its write targets are disjoint per variant, so any
  enumeration order yields the same cache; we fix one order in `allLoci`.
* The `CoordinateEmbedding` collaborator is external (declared in
  `coordinate_embedding.hpp`, not in `src/`); per the spec's interface
  contract it is modelled as a record of pure functions, and
  `gcon_native(gcov, gcon)` — which fills `gcon` and returns the
  determinant-derived scalar — is modelled as returning the pair.
-/

namespace Kharma

/-- The staggering-location enumeration `Loci` (5 variants, `NLOC = 5`). -/
inductive Loci where
  | center : Loci
  | face1 : Loci
  | face2 : Loci
  | face3 : Loci
  | corner : Loci
deriving DecidableEq, Repr

/-- The five locations visited by the cache-initializer loop
`for (int loc=0; loc < NLOC; ++loc)`. -/
def allLoci : List Loci := [.center, .face1, .face2, .face3, .corner]

/-- A 4-vector (`Real X[NDIM]`). -/
abbrev Vec4 := Fin 4 → ℚ

/-- A 4×4 tensor (`Real g[NDIM][NDIM]`). -/
abbrev Mat4 := Fin 4 → Fin 4 → ℚ

/-- A 4×4×4 tensor (`Real conn[NDIM][NDIM][NDIM]`). -/
abbrev Conn4 := Fin 4 → Fin 4 → Fin 4 → ℚ

/-- 4×4 matrix product, `(A * B)[mu][nu] = sum_lam A[mu][lam] * B[lam][nu]`. -/
def matMul4 (A B : Mat4) : Mat4 := fun mu nu => ∑ lam : Fin 4, A mu lam * B lam nu

/-- The identity 4×4 matrix. -/
def id4 : Mat4 := fun mu nu => if mu = nu then 1 else 0

/-- External coordinate-embedding collaborator (`coordinate_embedding.hpp`,
outside `src/`), modelled per the spec's interface contract §6:
`coordToEmbedding`, `metricCovAtNative`, `invertMetric` (returning the
contravariant metric together with the determinant-derived scalar), and
`connectionAtNative`. Field names follow the call sites in `grid.hpp`. -/
structure CoordinateEmbedding where
  coord_to_embed : Vec4 → Vec4
  gcov_native : Vec4 → Mat4
  gcon_native : Mat4 → Mat4 × ℚ
  conn_func : Vec4 → Conn4

/-- The six per-axis 1-D coordinate arrays owned by the mesh-block
collaborator (`pmb->pcoord->x1f`, ...). -/
structure Coordinates where
  x1f : ℤ → ℚ
  x2f : ℤ → ℚ
  x3f : ℤ → ℚ
  x1v : ℤ → ℚ
  x2v : ℤ → ℚ
  x3v : ℤ → ℚ

/-- External mesh-block collaborator: carries the coordinate arrays and the
block's zone counts along the first two logical axes (the source's
`init_grids` reads `G.gn1`, `G.gn2`). -/
structure MeshBlock where
  pcoord : Coordinates
  gn1 : ℕ
  gn2 : ℕ

/-- The `Grid` facade state: the (possibly uninitialized) pointer to the
embedding collaborator, the six coordinate-array views, and the block extents
`gn1`, `gn2` read by `init_grids`. The C++ member `CoordinateEmbedding*
coords` is a raw pointer that the flat-analytic constructor never assigns;
we model it as `Option CoordinateEmbedding`, `none` standing for the
uninitialized pointer. -/
structure Grid where
  coords : Option CoordinateEmbedding
  x1f : ℤ → ℚ
  x2f : ℤ → ℚ
  x3f : ℤ → ℚ
  x1v : ℤ → ℚ
  x2v : ℤ → ℚ
  x3v : ℤ → ℚ
  gn1 : ℕ
  gn2 : ℕ

/-- `Grid::coord` (grid.hpp:155-186): native coordinates of zone `(i,j,k)` at
staggering location `loc`. `X[0] = 0`; the switch selects face vs center
array per axis. -/
def Grid.coord (G : Grid) (i j k : ℤ) (loc : Loci) : Vec4 :=
  match loc with
  | .face1 => ![0, G.x1f i, G.x2v j, G.x3v k]
  | .face2 => ![0, G.x1v i, G.x2f j, G.x3v k]
  | .face3 => ![0, G.x1v i, G.x2v j, G.x3f k]
  | .center => ![0, G.x1v i, G.x2v j, G.x3v k]
  | .corner => ![0, G.x1f i, G.x2f j, G.x3f k]

/-- `Grid::coord_embed` (grid.hpp:114-119): composes `coord` with
`coords->coord_to_embed`. The source dereferences the `coords` pointer
unconditionally; in the model the result is defined (`some`) exactly when
the pointer was initialized. -/
def Grid.coord_embed (G : Grid) (i j k : ℤ) (loc : Loci) : Option Vec4 :=
  G.coords.map fun cs => cs.coord_to_embed (G.coord i j k loc)

/-- The flat-analytic (`FAST_CARTESIAN`) constructor `Grid::Grid(MeshBlock*)`
(grid.hpp:189-201): copies the six coordinate arrays, never assigns
`coords`. -/
def Grid.mkFast (pmb : MeshBlock) : Grid where
  coords := none
  x1f := pmb.pcoord.x1f
  x2f := pmb.pcoord.x2f
  x3f := pmb.pcoord.x3f
  x1v := pmb.pcoord.x1v
  x2v := pmb.pcoord.x2v
  x3v := pmb.pcoord.x3v
  gn1 := pmb.gn1
  gn2 := pmb.gn2

/-- The general constructor `Grid::Grid(CoordinateEmbedding*, MeshBlock*)`
(grid.hpp:136-150): stores the embedding pointer, copies the arrays (and, in
the cached build, then runs `init_grids`, modelled separately as
`init_grids_cached`). -/
def Grid.mkGeneral (coordinates : CoordinateEmbedding) (pmb : MeshBlock) : Grid where
  coords := some coordinates
  x1f := pmb.pcoord.x1f
  x2f := pmb.pcoord.x2f
  x3f := pmb.pcoord.x3f
  x1v := pmb.pcoord.x1v
  x2v := pmb.pcoord.x2v
  x3v := pmb.pcoord.x3v
  gn1 := pmb.gn1
  gn2 := pmb.gn2

/-! ### Flat-analytic (`FAST_CARTESIAN`) accessors, grid.hpp:65-80

Each scalar accessor body is `-2*(mu == 0 && nu == 0) + (mu == nu)` with the
C bool-to-int conversion; we translate `(b)` as `if b then 1 else 0`. -/

/-- `Grid::gcon` scalar overload in the `FAST_CARTESIAN` build (grid.hpp:66-67). -/
def gcon_fast (loc : Loci) (i j : ℤ) (mu nu : Fin 4) : ℚ :=
  -2 * (if mu = 0 ∧ nu = 0 then 1 else 0) + (if mu = nu then 1 else 0)

/-- `Grid::gcov` scalar overload in the `FAST_CARTESIAN` build (grid.hpp:68-69). -/
def gcov_fast (loc : Loci) (i j : ℤ) (mu nu : Fin 4) : ℚ :=
  -2 * (if mu = 0 ∧ nu = 0 then 1 else 0) + (if mu = nu then 1 else 0)

/-- `Grid::gdet` in the `FAST_CARTESIAN` build (grid.hpp:70-71). -/
def gdet_fast (loc : Loci) (i j : ℤ) : ℚ := 1

/-- `Grid::conn` scalar overload in the `FAST_CARTESIAN` build (grid.hpp:72-73). -/
def conn_fast (i j : ℤ) (mu nu lam : Fin 4) : ℚ := 0

/-- `Grid::gcon` full-matrix overload in the `FAST_CARTESIAN` build
(grid.hpp:75-76): `DLOOP2 gcon[mu][nu] = -2*(mu == 0 && nu == 0) + (mu == nu)`. -/
def gcon_fast_full (loc : Loci) (i j : ℤ) : Mat4 := fun mu nu =>
  -2 * (if mu = 0 ∧ nu = 0 then 1 else 0) + (if mu = nu then 1 else 0)

/-- `Grid::gcov` full-matrix overload in the `FAST_CARTESIAN` build
(grid.hpp:77-78). -/
def gcov_fast_full (loc : Loci) (i j : ℤ) : Mat4 := fun mu nu =>
  -2 * (if mu = 0 ∧ nu = 0 then 1 else 0) + (if mu = nu then 1 else 0)

/-- `Grid::conn` full-tensor overload in the `FAST_CARTESIAN` build
(grid.hpp:79-80): `DLOOP3 conn[mu][nu][lam] = 0`. -/
def conn_fast_full (i j : ℤ) : Conn4 := fun mu nu lam => 0

/-- The Minkowski diagonal `diag(-1,+1,+1,+1)` named by the spec. -/
def minkowskiDiag : Mat4 := fun mu nu =>
  if mu = 0 ∧ nu = 0 then -1 else if mu = nu then 1 else 0

/-! ### Index lowering and raising, grid.hpp:204-215

`lower`/`raise` call the build-selected `gcov`/`gcon` accessors; we
parametrize them by a `Geom` record holding the two scalar accessors, so the
same definition covers every build. The C++ body zeroes `vcov` (`DLOOP1`) and
then accumulates `vcov[mu] += gcov(loc,i,j,mu,nu) * vcon[nu]` over the double
loop (`DLOOP2`); per output component this is a left fold over
`nu = 0,1,2,3` starting from 0. The `k` argument is accepted and ignored,
exactly as in the source. -/

/-- The build-selected scalar metric accessors consumed by `lower`/`raise`. -/
structure Geom where
  gcov : Loci → ℤ → ℤ → Fin 4 → Fin 4 → ℚ
  gcon : Loci → ℤ → ℤ → Fin 4 → Fin 4 → ℚ

/-- The index sequence `0,1,2,3` of a `DLOOP1` over `NDIM`. -/
def fin4List : List (Fin 4) := [0, 1, 2, 3]

/-- `Grid::lower` (grid.hpp:204-209). -/
def lower (gm : Geom) (vcon : Vec4) (i j k : ℤ) (loc : Loci) : Vec4 :=
  fun mu => fin4List.foldl (fun acc nu => acc + gm.gcov loc i j mu nu * vcon nu) 0

/-- `Grid::raise` (grid.hpp:210-215). -/
def raise (gm : Geom) (vcov : Vec4) (i j k : ℤ) (loc : Loci) : Vec4 :=
  fun mu => fin4List.foldl (fun acc nu => acc + gm.gcon loc i j mu nu * vcov nu) 0

/-- The `FAST_CARTESIAN` build's accessor pair. -/
def fastGeom : Geom where
  gcov := gcov_fast
  gcon := gcon_fast

/-! ### Cached-build storage and `init_grids`, grid.hpp:226-269

The cached build declares `GeomTensor gcon_direct, gcov_direct`,
`GeomScalar gdet_direct`, `GeomConn conn_direct` (grid.hpp:51-53), allocated
and filled once by `init_grids`. We model the four arrays as functions to
`Option ℚ`, `none` marking a slot never written (freshly allocated storage),
and the two `Kokkos::parallel_for` sweeps as left folds over the 2-D index
range: every unit of work writes only slots keyed by its own `(i,j)` (and
`loc`), so the fold order is irrelevant and matches any parallel schedule. -/

/-- The cached build's geometry storage (`gcov_direct`, `gcon_direct`,
`gdet_direct`, `conn_direct`), slots `none` until written. -/
structure GeomArrays where
  gcov_arr : Loci → ℤ → ℤ → Fin 4 → Fin 4 → Option ℚ
  gcon_arr : Loci → ℤ → ℤ → Fin 4 → Fin 4 → Option ℚ
  gdet_arr : Loci → ℤ → ℤ → Option ℚ
  conn_arr : ℤ → ℤ → Fin 4 → Fin 4 → Fin 4 → Option ℚ

/-- Freshly allocated storage: nothing written yet. -/
def emptyArrays : GeomArrays where
  gcov_arr := fun _ _ _ _ _ => none
  gcon_arr := fun _ _ _ _ _ => none
  gdet_arr := fun _ _ _ => none
  conn_arr := fun _ _ _ _ _ => none

/-- Write `gdet_local(loc, i, j) = v` (grid.hpp:249). -/
def GeomArrays.setGdet (s : GeomArrays) (loc : Loci) (i j : ℤ) (v : ℚ) : GeomArrays :=
  { s with gdet_arr := fun l a b =>
      if l = loc ∧ a = i ∧ b = j then some v else s.gdet_arr l a b }

/-- Write `DLOOP2 gcov_local(loc, i, j, mu, nu) = m[mu][nu]` (grid.hpp:251). -/
def GeomArrays.setGcovMat (s : GeomArrays) (loc : Loci) (i j : ℤ) (m : Mat4) : GeomArrays :=
  { s with gcov_arr := fun l a b mu nu =>
      if l = loc ∧ a = i ∧ b = j then some (m mu nu) else s.gcov_arr l a b mu nu }

/-- Write `DLOOP2 gcon_local(loc, i, j, mu, nu) = m[mu][nu]` (grid.hpp:252). -/
def GeomArrays.setGconMat (s : GeomArrays) (loc : Loci) (i j : ℤ) (m : Mat4) : GeomArrays :=
  { s with gcon_arr := fun l a b mu nu =>
      if l = loc ∧ a = i ∧ b = j then some (m mu nu) else s.gcon_arr l a b mu nu }

/-- Write `conn_local(i, j, mu, nu, kap) = c[mu][nu][kap]` for all indices
(grid.hpp:263-264). -/
def GeomArrays.setConn (s : GeomArrays) (i j : ℤ) (c : Conn4) : GeomArrays :=
  { s with conn_arr := fun a b mu nu lam =>
      if a = i ∧ b = j then some (c mu nu lam) else s.conn_arr a b mu nu lam }

/-- One iteration of the location loop in the metric sweep (grid.hpp:246-254):
compute `X = coord(i,j,0,loc)`, `gcov_loc = cs.gcov_native(X)`,
`gdet = cs.gcon_native(gcov_loc, gcon_loc)`, store all three. -/
def init_geom_loc (cs : CoordinateEmbedding) (G : Grid) (i j : ℤ)
    (s : GeomArrays) (loc : Loci) : GeomArrays :=
  let X := G.coord i j 0 loc
  let gcov_loc := cs.gcov_native X
  let p := cs.gcon_native gcov_loc
  ((s.setGdet loc i j p.2).setGcovMat loc i j gcov_loc).setGconMat loc i j p.1

/-- The metric sweep's unit of work at `(i,j)` (grid.hpp:243-255): the
location loop over all 5 locations. -/
def init_geom_body (cs : CoordinateEmbedding) (G : Grid)
    (s : GeomArrays) (i j : ℤ) : GeomArrays :=
  allLoci.foldl (init_geom_loc cs G i j) s

/-- The connection sweep's unit of work at `(i,j)` (grid.hpp:258-265):
`X = coord(i,j,0,center)`, `cs.conn_func(X, conn_loc)`, store. -/
def init_conn_body (cs : CoordinateEmbedding) (G : Grid)
    (s : GeomArrays) (i j : ℤ) : GeomArrays :=
  s.setConn i j (cs.conn_func (G.coord i j 0 .center))

/-- The 2-D index range `{0,...,gn1-1} × {0,...,gn2-1}` of
`MDRangePolicy<Rank<2>>({0, 0}, {G.gn1, G.gn2})`. -/
def indexPairs (n m : ℕ) : List (ℤ × ℤ) :=
  (List.range n).flatMap fun a => (List.range m).map fun b => ((a : ℤ), (b : ℤ))

/-- `init_grids` in the cached build (grid.hpp:226-269): allocate the four
arrays, run the metric sweep, run the connection sweep. The embedding
collaborator is the by-value copy `cs = *(G.coords)`; we pass it explicitly. -/
def init_grids_cached (cs : CoordinateEmbedding) (G : Grid) : GeomArrays :=
  (indexPairs G.gn1 G.gn2).foldl (fun s p => init_conn_body cs G s p.1 p.2)
    ((indexPairs G.gn1 G.gn2).foldl (fun s p => init_geom_body cs G s p.1 p.2)
      emptyArrays)

/-! ### Build-mode structure of the class, grid.hpp:21-23, 49-54, 65-110, 223-224

The preprocessor selects one of three builds. Which data members the class
declares (grid.hpp:40-54) and which members each accessor body reads
(grid.hpp:65-110) are plain facts of the source text; we transcribe them as
tables. -/

/-- The three build configurations (`FAST_CARTESIAN`, `NO_CACHE`, neither). -/
inductive BuildMode where
  | fast_cartesian : BuildMode
  | no_cache : BuildMode
  | cached : BuildMode
deriving DecidableEq, Repr

/-- The data members of `class Grid`. -/
inductive GridMember where
  | coords : GridMember
  | x1f : GridMember
  | x2f : GridMember
  | x3f : GridMember
  | x1v : GridMember
  | x2v : GridMember
  | x3v : GridMember
  | gcon_direct : GridMember
  | gcov_direct : GridMember
  | gdet_direct : GridMember
  | conn_direct : GridMember
deriving DecidableEq, Repr

/-- Members every build declares (grid.hpp:42-46). -/
def baseMembers : List GridMember :=
  [.coords, .x1f, .x2f, .x3f, .x1v, .x2v, .x3v]

/-- The cache-storage members (grid.hpp:51-53). -/
def cacheMembers : List GridMember :=
  [.gcon_direct, .gcov_direct, .gdet_direct, .conn_direct]

/-- Members declared per build: `#if FAST_CARTESIAN || NO_CACHE` declares
nothing beyond the base members; only the cached build declares the four
cache arrays (grid.hpp:49-54). -/
def declaredMembers : BuildMode → List GridMember
  | .fast_cartesian => baseMembers
  | .no_cache => baseMembers
  | .cached => baseMembers ++ cacheMembers

/-- The four metric accessors of the facade. -/
inductive Accessor where
  | gcov : Accessor
  | gcon : Accessor
  | gdet : Accessor
  | conn : Accessor
deriving DecidableEq, Repr

/-- Data members read by each accessor body, per build (grid.hpp:65-110):
the `FAST_CARTESIAN` bodies are closed-form and read no member; the
`NO_CACHE` bodies (grid.hpp:84-91) and the cached bodies (grid.hpp:95-102)
read the corresponding `*_direct` member. No accessor body reads `coords`. -/
def membersRead : BuildMode → Accessor → List GridMember
  | .fast_cartesian, _ => []
  | .no_cache, .gcov => [.gcov_direct]
  | .no_cache, .gcon => [.gcon_direct]
  | .no_cache, .gdet => [.gdet_direct]
  | .no_cache, .conn => [.conn_direct]
  | .cached, .gcov => [.gcov_direct]
  | .cached, .gcon => [.gcon_direct]
  | .cached, .gdet => [.gdet_direct]
  | .cached, .conn => [.conn_direct]

/-- `init_grids` in the `FAST_CARTESIAN` and `NO_CACHE` builds
(grid.hpp:223-224) is `void init_grids(Grid& G) {}`: it allocates and writes
nothing, so a `NO_CACHE` facade carries no geometry storage. -/
def nocacheStorage : Option GeomArrays := none

/-- The `NO_CACHE` build's `Grid::gcov` accessor (grid.hpp:86-87): it reads
`gcov_direct(loc, i, j, mu, nu)` from the build's (absent) storage. -/
def gcov_nocache (storage : Option GeomArrays) (loc : Loci) (i j : ℤ)
    (mu nu : Fin 4) : Option ℚ :=
  storage.bind fun A => A.gcov_arr loc i j mu nu

/-- The `NO_CACHE` build's `Grid::gcon` accessor (grid.hpp:84-85). -/
def gcon_nocache (storage : Option GeomArrays) (loc : Loci) (i j : ℤ)
    (mu nu : Fin 4) : Option ℚ :=
  storage.bind fun A => A.gcon_arr loc i j mu nu

/-- The `NO_CACHE` build's `Grid::gdet` accessor (grid.hpp:88-89). -/
def gdet_nocache (storage : Option GeomArrays) (loc : Loci) (i j : ℤ) : Option ℚ :=
  storage.bind fun A => A.gdet_arr loc i j

/-- The `NO_CACHE` build's `Grid::conn` accessor (grid.hpp:90-91). -/
def conn_nocache (storage : Option GeomArrays) (i j : ℤ)
    (mu nu lam : Fin 4) : Option ℚ :=
  storage.bind fun A => A.conn_arr i j mu nu lam

/-! ### Helper lemmas -/

/-- A `DLOOP`-style accumulation over `nu = 0,1,2,3` is the `Fin 4` sum. -/
lemma foldl_fin4 (f : Fin 4 → ℚ) :
    fin4List.foldl (fun acc nu => acc + f nu) 0 = ∑ nu : Fin 4, f nu := by
  simp [fin4List, Fin.sum_univ_four]

/-- `lower` componentwise as a sum. -/
lemma lower_apply (gm : Geom) (v : Vec4) (i j k : ℤ) (loc : Loci) (mu : Fin 4) :
    lower gm v i j k loc mu = ∑ nu : Fin 4, gm.gcov loc i j mu nu * v nu :=
  foldl_fin4 _

/-- `raise` componentwise as a sum. -/
lemma raise_apply (gm : Geom) (v : Vec4) (i j k : ℤ) (loc : Loci) (mu : Fin 4) :
    raise gm v i j k loc mu = ∑ nu : Fin 4, gm.gcon loc i j mu nu * v nu :=
  foldl_fin4 _

/-! ### Characterizing the cache fill

The two `parallel_for` sweeps are folds whose units of work write only slots
keyed by their own `(i,j)`; the lemmas below recover the per-slot contents of
the filled cache. -/

/-- A fold of per-`(i,j)` bodies leaves any body-invariant projection
unchanged. -/
lemma foldl_read_preserve {β : Type} (body : GeomArrays → ℤ × ℤ → GeomArrays)
    (read : GeomArrays → β) (hpres : ∀ s p, read (body s p) = read s)
    (l : List (ℤ × ℤ)) (s : GeomArrays) :
    read (l.foldl body s) = read s := by
  induction l generalizing s with
  | nil => rfl
  | cons hd tl ih => rw [List.foldl_cons, ih, hpres]

/-- A fold of keyed bodies does not disturb a key outside the list. -/
lemma foldl_read_not_mem {β : Type} (body : GeomArrays → ℤ × ℤ → GeomArrays)
    (read : GeomArrays → ℤ × ℤ → β)
    (hother : ∀ s p q, p ≠ q → read (body s q) p = read s p)
    (l : List (ℤ × ℤ)) (s : GeomArrays) (p : ℤ × ℤ) (h : p ∉ l) :
    read (l.foldl body s) p = read s p := by
  induction l generalizing s with
  | nil => rfl
  | cons hd tl ih =>
    rw [List.foldl_cons, ih _ (fun hm => h (List.mem_cons_of_mem _ hm)),
      hother _ _ _ (fun he => h (by rw [he]; exact List.mem_cons_self _ _))]

/-- A fold of keyed bodies writing a state-independent value per key: every
key in the list ends up holding its value. -/
lemma foldl_read_mem {β : Type} (body : GeomArrays → ℤ × ℤ → GeomArrays)
    (read : GeomArrays → ℤ × ℤ → β) (val : ℤ × ℤ → β)
    (hself : ∀ s p, read (body s p) p = val p)
    (hother : ∀ s p q, p ≠ q → read (body s q) p = read s p)
    (l : List (ℤ × ℤ)) (s : GeomArrays) (p : ℤ × ℤ) (h : p ∈ l) :
    read (l.foldl body s) p = val p := by
  induction l generalizing s with
  | nil => cases h
  | cons hd tl ih =>
    rw [List.foldl_cons]
    by_cases htl : p ∈ tl
    · exact ih _ htl
    · have hd_eq : hd = p := by
        rcases List.mem_cons.mp h with h1 | h1
        · exact h1.symm
        · exact absurd h1 htl
      subst hd_eq
      rw [foldl_read_not_mem body read hother tl _ _ htl, hself]

/-- The metric unit of work stores the collaborator's covariant metric at
its own `(loc, i, j)` slots. -/
lemma init_geom_loc_gcov_self (cs : CoordinateEmbedding) (G : Grid) (i j : ℤ)
    (s : GeomArrays) (loc : Loci) (mu nu : Fin 4) :
    (init_geom_loc cs G i j s loc).gcov_arr loc i j mu nu =
      some (cs.gcov_native (G.coord i j 0 loc) mu nu) := by
  simp [init_geom_loc, GeomArrays.setGconMat, GeomArrays.setGcovMat,
    GeomArrays.setGdet]

/-- The metric unit of work stores the inverted metric at its own slots. -/
lemma init_geom_loc_gcon_self (cs : CoordinateEmbedding) (G : Grid) (i j : ℤ)
    (s : GeomArrays) (loc : Loci) (mu nu : Fin 4) :
    (init_geom_loc cs G i j s loc).gcon_arr loc i j mu nu =
      some ((cs.gcon_native (cs.gcov_native (G.coord i j 0 loc))).1 mu nu) := by
  simp [init_geom_loc, GeomArrays.setGconMat, GeomArrays.setGcovMat,
    GeomArrays.setGdet]

/-- The metric unit of work stores the determinant-derived scalar at its own
slot. -/
lemma init_geom_loc_gdet_self (cs : CoordinateEmbedding) (G : Grid) (i j : ℤ)
    (s : GeomArrays) (loc : Loci) :
    (init_geom_loc cs G i j s loc).gdet_arr loc i j =
      some ((cs.gcon_native (cs.gcov_native (G.coord i j 0 loc))).2) := by
  simp [init_geom_loc, GeomArrays.setGconMat, GeomArrays.setGcovMat,
    GeomArrays.setGdet]

/-- The metric unit of work does not disturb other slots (`gcov`). -/
lemma init_geom_loc_gcov_other (cs : CoordinateEmbedding) (G : Grid) (i j : ℤ)
    (s : GeomArrays) (loc l : Loci) (a b : ℤ) (mu nu : Fin 4)
    (h : ¬(l = loc ∧ a = i ∧ b = j)) :
    (init_geom_loc cs G i j s loc).gcov_arr l a b mu nu =
      s.gcov_arr l a b mu nu := by
  simp [init_geom_loc, GeomArrays.setGconMat, GeomArrays.setGcovMat,
    GeomArrays.setGdet, h]

/-- The metric unit of work does not disturb other slots (`gcon`). -/
lemma init_geom_loc_gcon_other (cs : CoordinateEmbedding) (G : Grid) (i j : ℤ)
    (s : GeomArrays) (loc l : Loci) (a b : ℤ) (mu nu : Fin 4)
    (h : ¬(l = loc ∧ a = i ∧ b = j)) :
    (init_geom_loc cs G i j s loc).gcon_arr l a b mu nu =
      s.gcon_arr l a b mu nu := by
  simp [init_geom_loc, GeomArrays.setGconMat, GeomArrays.setGcovMat,
    GeomArrays.setGdet, h]

/-- The metric unit of work does not disturb other slots (`gdet`). -/
lemma init_geom_loc_gdet_other (cs : CoordinateEmbedding) (G : Grid) (i j : ℤ)
    (s : GeomArrays) (loc l : Loci) (a b : ℤ)
    (h : ¬(l = loc ∧ a = i ∧ b = j)) :
    (init_geom_loc cs G i j s loc).gdet_arr l a b = s.gdet_arr l a b := by
  simp [init_geom_loc, GeomArrays.setGconMat, GeomArrays.setGcovMat,
    GeomArrays.setGdet, h]

/-- After the location loop at `(i,j)`, every location's `gcov` slots hold
the collaborator's covariant metric at `coord(i,j,0,loc)`. -/
lemma init_geom_body_gcov (cs : CoordinateEmbedding) (G : Grid)
    (s : GeomArrays) (i j : ℤ) (loc : Loci) (mu nu : Fin 4) :
    (init_geom_body cs G s i j).gcov_arr loc i j mu nu =
      some (cs.gcov_native (G.coord i j 0 loc) mu nu) := by
  cases loc <;>
    simp [init_geom_body, allLoci, init_geom_loc, GeomArrays.setGconMat,
      GeomArrays.setGcovMat, GeomArrays.setGdet]

/-- After the location loop at `(i,j)`, every location's `gcon` slots hold
the inverted metric. -/
lemma init_geom_body_gcon (cs : CoordinateEmbedding) (G : Grid)
    (s : GeomArrays) (i j : ℤ) (loc : Loci) (mu nu : Fin 4) :
    (init_geom_body cs G s i j).gcon_arr loc i j mu nu =
      some ((cs.gcon_native (cs.gcov_native (G.coord i j 0 loc))).1 mu nu) := by
  cases loc <;>
    simp [init_geom_body, allLoci, init_geom_loc, GeomArrays.setGconMat,
      GeomArrays.setGcovMat, GeomArrays.setGdet]

/-- After the location loop at `(i,j)`, every location's `gdet` slot holds
the determinant-derived scalar. -/
lemma init_geom_body_gdet (cs : CoordinateEmbedding) (G : Grid)
    (s : GeomArrays) (i j : ℤ) (loc : Loci) :
    (init_geom_body cs G s i j).gdet_arr loc i j =
      some ((cs.gcon_native (cs.gcov_native (G.coord i j 0 loc))).2) := by
  cases loc <;>
    simp [init_geom_body, allLoci, init_geom_loc, GeomArrays.setGconMat,
      GeomArrays.setGcovMat, GeomArrays.setGdet]

/-- The location loop at `(i,j)` does not disturb other zones (`gcov`). -/
lemma init_geom_body_gcov_other (cs : CoordinateEmbedding) (G : Grid)
    (s : GeomArrays) (i j : ℤ) (l : Loci) (a b : ℤ) (mu nu : Fin 4)
    (h : ¬(a = i ∧ b = j)) :
    (init_geom_body cs G s i j).gcov_arr l a b mu nu =
      s.gcov_arr l a b mu nu := by
  have h5 : ∀ loc : Loci, ¬(l = loc ∧ a = i ∧ b = j) :=
    fun loc hc => h ⟨hc.2.1, hc.2.2⟩
  simp [init_geom_body, allLoci, init_geom_loc, GeomArrays.setGconMat,
    GeomArrays.setGcovMat, GeomArrays.setGdet, h5]

/-- The location loop at `(i,j)` does not disturb other zones (`gcon`). -/
lemma init_geom_body_gcon_other (cs : CoordinateEmbedding) (G : Grid)
    (s : GeomArrays) (i j : ℤ) (l : Loci) (a b : ℤ) (mu nu : Fin 4)
    (h : ¬(a = i ∧ b = j)) :
    (init_geom_body cs G s i j).gcon_arr l a b mu nu =
      s.gcon_arr l a b mu nu := by
  have h5 : ∀ loc : Loci, ¬(l = loc ∧ a = i ∧ b = j) :=
    fun loc hc => h ⟨hc.2.1, hc.2.2⟩
  simp [init_geom_body, allLoci, init_geom_loc, GeomArrays.setGconMat,
    GeomArrays.setGcovMat, GeomArrays.setGdet, h5]

/-- The location loop at `(i,j)` does not disturb other zones (`gdet`). -/
lemma init_geom_body_gdet_other (cs : CoordinateEmbedding) (G : Grid)
    (s : GeomArrays) (i j : ℤ) (l : Loci) (a b : ℤ)
    (h : ¬(a = i ∧ b = j)) :
    (init_geom_body cs G s i j).gdet_arr l a b = s.gdet_arr l a b := by
  have h5 : ∀ loc : Loci, ¬(l = loc ∧ a = i ∧ b = j) :=
    fun loc hc => h ⟨hc.2.1, hc.2.2⟩
  simp [init_geom_body, allLoci, init_geom_loc, GeomArrays.setGconMat,
    GeomArrays.setGcovMat, GeomArrays.setGdet, h5]

/-- The metric unit of work never touches the connection storage. -/
lemma init_geom_body_conn (cs : CoordinateEmbedding) (G : Grid)
    (s : GeomArrays) (i j : ℤ) :
    (init_geom_body cs G s i j).conn_arr = s.conn_arr := rfl

/-- The connection unit of work stores the collaborator's connection tensor
evaluated at the zone center. -/
lemma init_conn_body_self (cs : CoordinateEmbedding) (G : Grid)
    (s : GeomArrays) (i j : ℤ) (mu nu lam : Fin 4) :
    (init_conn_body cs G s i j).conn_arr i j mu nu lam =
      some (cs.conn_func (G.coord i j 0 .center) mu nu lam) := by
  simp [init_conn_body, GeomArrays.setConn]

/-- The connection unit of work does not disturb other zones. -/
lemma init_conn_body_other (cs : CoordinateEmbedding) (G : Grid)
    (s : GeomArrays) (i j a b : ℤ) (mu nu lam : Fin 4)
    (h : ¬(a = i ∧ b = j)) :
    (init_conn_body cs G s i j).conn_arr a b mu nu lam =
      s.conn_arr a b mu nu lam := by
  simp [init_conn_body, GeomArrays.setConn, h]

/-- The connection unit of work never touches the metric storage. -/
lemma init_conn_body_gcov (cs : CoordinateEmbedding) (G : Grid)
    (s : GeomArrays) (i j : ℤ) :
    (init_conn_body cs G s i j).gcov_arr = s.gcov_arr ∧
    (init_conn_body cs G s i j).gcon_arr = s.gcon_arr ∧
    (init_conn_body cs G s i j).gdet_arr = s.gdet_arr :=
  ⟨rfl, rfl, rfl⟩

/-- Membership in the modelled `MDRangePolicy` index range. -/
lemma mem_indexPairs {n m : ℕ} {i j : ℤ} :
    (i, j) ∈ indexPairs n m ↔ 0 ≤ i ∧ i < (n : ℤ) ∧ 0 ≤ j ∧ j < (m : ℤ) := by
  simp [indexPairs, List.mem_flatMap, List.mem_map, List.mem_range, Prod.ext_iff]
  constructor
  · rintro ⟨a, ha, b, hb, h1, h2⟩
    omega
  · rintro ⟨h1, h2, h3, h4⟩
    exact ⟨i.toNat, by omega, ⟨j.toNat, by omega, by omega⟩, by omega⟩

/-- The filled cache at an in-range zone: `gcov` slots. -/
lemma init_grids_cached_gcov (cs : CoordinateEmbedding) (G : Grid) (i j : ℤ)
    (h : (i, j) ∈ indexPairs G.gn1 G.gn2) (loc : Loci) (mu nu : Fin 4) :
    (init_grids_cached cs G).gcov_arr loc i j mu nu =
      some (cs.gcov_native (G.coord i j 0 loc) mu nu) := by
  unfold init_grids_cached
  rw [foldl_read_preserve (fun s p => init_conn_body cs G s p.1 p.2)
    (fun s => s.gcov_arr) (fun s p => (init_conn_body_gcov cs G s p.1 p.2).1)]
  exact foldl_read_mem (fun s p => init_geom_body cs G s p.1 p.2)
    (fun s p => s.gcov_arr loc p.1 p.2 mu nu)
    (fun p => some (cs.gcov_native (G.coord p.1 p.2 0 loc) mu nu))
    (fun s p => init_geom_body_gcov cs G s p.1 p.2 loc mu nu)
    (fun s p q hpq => init_geom_body_gcov_other cs G s q.1 q.2 loc p.1 p.2 mu nu
      (fun hc => hpq (Prod.ext hc.1 hc.2)))
    _ _ _ h

/-- The filled cache at an in-range zone: `gcon` slots. -/
lemma init_grids_cached_gcon (cs : CoordinateEmbedding) (G : Grid) (i j : ℤ)
    (h : (i, j) ∈ indexPairs G.gn1 G.gn2) (loc : Loci) (mu nu : Fin 4) :
    (init_grids_cached cs G).gcon_arr loc i j mu nu =
      some ((cs.gcon_native (cs.gcov_native (G.coord i j 0 loc))).1 mu nu) := by
  unfold init_grids_cached
  rw [foldl_read_preserve (fun s p => init_conn_body cs G s p.1 p.2)
    (fun s => s.gcon_arr) (fun s p => (init_conn_body_gcov cs G s p.1 p.2).2.1)]
  exact foldl_read_mem (fun s p => init_geom_body cs G s p.1 p.2)
    (fun s p => s.gcon_arr loc p.1 p.2 mu nu)
    (fun p => some ((cs.gcon_native (cs.gcov_native (G.coord p.1 p.2 0 loc))).1 mu nu))
    (fun s p => init_geom_body_gcon cs G s p.1 p.2 loc mu nu)
    (fun s p q hpq => init_geom_body_gcon_other cs G s q.1 q.2 loc p.1 p.2 mu nu
      (fun hc => hpq (Prod.ext hc.1 hc.2)))
    _ _ _ h

/-- The filled cache at an in-range zone: `gdet` slot. -/
lemma init_grids_cached_gdet (cs : CoordinateEmbedding) (G : Grid) (i j : ℤ)
    (h : (i, j) ∈ indexPairs G.gn1 G.gn2) (loc : Loci) :
    (init_grids_cached cs G).gdet_arr loc i j =
      some ((cs.gcon_native (cs.gcov_native (G.coord i j 0 loc))).2) := by
  unfold init_grids_cached
  rw [foldl_read_preserve (fun s p => init_conn_body cs G s p.1 p.2)
    (fun s => s.gdet_arr) (fun s p => (init_conn_body_gcov cs G s p.1 p.2).2.2)]
  exact foldl_read_mem (fun s p => init_geom_body cs G s p.1 p.2)
    (fun s p => s.gdet_arr loc p.1 p.2)
    (fun p => some ((cs.gcon_native (cs.gcov_native (G.coord p.1 p.2 0 loc))).2))
    (fun s p => init_geom_body_gdet cs G s p.1 p.2 loc)
    (fun s p q hpq => init_geom_body_gdet_other cs G s q.1 q.2 loc p.1 p.2
      (fun hc => hpq (Prod.ext hc.1 hc.2)))
    _ _ _ h

/-- The filled cache at an in-range zone: `conn` slots, evaluated at the
zone center only. -/
lemma init_grids_cached_conn (cs : CoordinateEmbedding) (G : Grid) (i j : ℤ)
    (h : (i, j) ∈ indexPairs G.gn1 G.gn2) (mu nu lam : Fin 4) :
    (init_grids_cached cs G).conn_arr i j mu nu lam =
      some (cs.conn_func (G.coord i j 0 .center) mu nu lam) := by
  unfold init_grids_cached
  exact foldl_read_mem (fun s p => init_conn_body cs G s p.1 p.2)
    (fun s p => s.conn_arr p.1 p.2 mu nu lam)
    (fun p => some (cs.conn_func (G.coord p.1 p.2 0 .center) mu nu lam))
    (fun s p => init_conn_body_self cs G s p.1 p.2 mu nu lam)
    (fun s p q hpq => init_conn_body_other cs G s q.1 q.2 p.1 p.2 mu nu lam
      (fun hc => hpq (Prod.ext hc.1 hc.2)))
    _ _ _ h

/-! ### Claim theorems (first group) -/

/-- C1: In the flat-analytic (`FAST_CARTESIAN`) build, `gcov` and `gcon`
equal the Minkowski diagonal `diag(-1,+1,+1,+1)` independent of `loc`, `i`,
`j`; `gdet` equals 1; `conn` equals 0; and the full-matrix overloads fill
every component with the same values. -/
theorem fast_cartesian_minkowski (loc : Loci) (i j : ℤ) (mu nu lam : Fin 4) :
    gcov_fast loc i j mu nu = minkowskiDiag mu nu ∧
    gcon_fast loc i j mu nu = minkowskiDiag mu nu ∧
    gdet_fast loc i j = 1 ∧
    conn_fast i j mu nu lam = 0 ∧
    gcov_fast_full loc i j mu nu = minkowskiDiag mu nu ∧
    gcon_fast_full loc i j mu nu = minkowskiDiag mu nu ∧
    conn_fast_full i j mu nu lam = 0 := by
  refine ⟨?_, ?_, rfl, rfl, ?_, ?_, rfl⟩ <;>
    fin_cases mu <;> fin_cases nu <;>
      simp [gcov_fast, gcon_fast, gcov_fast_full, gcon_fast_full, minkowskiDiag] <;>
      norm_num

/-- C2: `coord(i,j,k,loc)` has time component 0 and selects face vs center
arrays per axis by the staggering of `loc`: `center` uses
`(x1v i, x2v j, x3v k)`; `face1`/`face2`/`face3` replace only the staggered
axis with the face-array value; `corner` uses all three face arrays. In
particular `coord(i,j,k,face1)` differs from `coord(i,j,k,center)` only in
the first spatial component, where it equals `x1f i`. -/
theorem coord_staggering (G : Grid) (i j k : ℤ) :
    (∀ loc, G.coord i j k loc 0 = 0) ∧
    (∀ m : Fin 4, G.coord i j k .center m = ![0, G.x1v i, G.x2v j, G.x3v k] m) ∧
    (∀ m : Fin 4, G.coord i j k .face1 m =
      if m = 1 then G.x1f i else G.coord i j k .center m) ∧
    (∀ m : Fin 4, G.coord i j k .face2 m =
      if m = 2 then G.x2f j else G.coord i j k .center m) ∧
    (∀ m : Fin 4, G.coord i j k .face3 m =
      if m = 3 then G.x3f k else G.coord i j k .center m) ∧
    (∀ m : Fin 4, G.coord i j k .corner m = ![0, G.x1f i, G.x2f j, G.x3f k] m) := by
  refine ⟨fun loc => ?_, fun m => rfl, fun m => ?_, fun m => ?_, fun m => ?_, fun m => rfl⟩
  · cases loc <;> rfl
  · fin_cases m <;> simp [Grid.coord]
  · fin_cases m <;> simp [Grid.coord]
  · fin_cases m <;> simp [Grid.coord]

/-- C3: `lower` sets `vcov[mu] = sum_nu gcov(loc,i,j,mu,nu) * vcon[nu]` and
`raise` sets `vcon[mu] = sum_nu gcon(loc,i,j,mu,nu) * vcov[nu]`, as pure
functions of their inputs. -/
theorem lower_raise_contraction (gm : Geom) (v : Vec4) (i j k : ℤ)
    (loc : Loci) (mu : Fin 4) :
    lower gm v i j k loc mu = ∑ nu : Fin 4, gm.gcov loc i j mu nu * v nu ∧
    raise gm v i j k loc mu = ∑ nu : Fin 4, gm.gcon loc i j mu nu * v nu :=
  ⟨lower_apply gm v i j k loc mu, raise_apply gm v i j k loc mu⟩

/-- C10: the flat-analytic constructor never initializes the `coords`
pointer (modelled `none`), and `coord_embed` dereferences it, so a
flat-analytic facade has no defined `coord_embed` result; after the general
two-argument construction `coord_embed` is defined and equals the embedding
map applied to the native coordinate. -/
theorem coord_embed_defined_only_general :
    (∀ (pmb : MeshBlock) (i j k : ℤ) (loc : Loci),
      (Grid.mkFast pmb).coords = none ∧
      (Grid.mkFast pmb).coord_embed i j k loc = none) ∧
    (∀ (ce : CoordinateEmbedding) (pmb : MeshBlock) (i j k : ℤ) (loc : Loci),
      (Grid.mkGeneral ce pmb).coord_embed i j k loc =
        some (ce.coord_to_embed ((Grid.mkGeneral ce pmb).coord i j k loc))) :=
  ⟨fun _ _ _ _ _ => ⟨rfl, rfl⟩, fun _ _ _ _ _ _ => rfl⟩

/-- C6 (code evaluation): in the `NO_CACHE` build each metric accessor body
reads the corresponding `*_direct` cache member — a member the `NO_CACHE`
build never declares (grid.hpp:49-54) — and reads nothing through the
`coords` embedding pointer; with the build's absent storage (`init_grids`
is empty there) every accessor is undefined (`none`) instead of a value
recomputed through the collaborator. -/
theorem nocache_reads_cache_not_embedding :
    (membersRead .no_cache .gcov = [.gcov_direct] ∧
     membersRead .no_cache .gcon = [.gcon_direct] ∧
     membersRead .no_cache .gdet = [.gdet_direct] ∧
     membersRead .no_cache .conn = [.conn_direct]) ∧
    ((declaredMembers .no_cache).contains GridMember.gcov_direct = false ∧
     (declaredMembers .no_cache).contains GridMember.gcon_direct = false ∧
     (declaredMembers .no_cache).contains GridMember.gdet_direct = false ∧
     (declaredMembers .no_cache).contains GridMember.conn_direct = false) ∧
    (∀ a : Accessor, (membersRead .no_cache a).contains GridMember.coords = false) ∧
    (∀ (loc : Loci) (i j : ℤ) (mu nu lam : Fin 4),
      gcov_nocache nocacheStorage loc i j mu nu = none ∧
      gcon_nocache nocacheStorage loc i j mu nu = none ∧
      gdet_nocache nocacheStorage loc i j = none ∧
      conn_nocache nocacheStorage i j mu nu lam = none) := by
  refine ⟨⟨rfl, rfl, rfl, rfl⟩, ⟨by decide, by decide, by decide, by decide⟩, ?_, ?_⟩
  · intro a; cases a <;> decide
  · intro loc i j mu nu lam; exact ⟨rfl, rfl, rfl, rfl⟩

/-! ### More helpers: inverse metrics and congruence of the initializer -/

/-- If `gcon` is the (left) inverse of `gcov` at a point, raising after
lowering is the identity there. -/
lemma raise_lower_of_inverse (gm : Geom)
    (hinv : ∀ (loc : Loci) (i j : ℤ) (mu nu : Fin 4),
      (∑ lam : Fin 4, gm.gcon loc i j mu lam * gm.gcov loc i j lam nu) = id4 mu nu)
    (v : Vec4) (i j k : ℤ) (loc : Loci) (mu : Fin 4) :
    raise gm (lower gm v i j k loc) i j k loc mu = v mu := by
  rw [raise_apply]
  calc (∑ nu : Fin 4, gm.gcon loc i j mu nu * lower gm v i j k loc nu)
      = ∑ nu : Fin 4, ∑ lam : Fin 4,
          gm.gcon loc i j mu nu * (gm.gcov loc i j nu lam * v lam) := by
        refine Finset.sum_congr rfl fun nu _ => ?_
        rw [lower_apply, Finset.mul_sum]
    _ = ∑ lam : Fin 4, ∑ nu : Fin 4,
          gm.gcon loc i j mu nu * gm.gcov loc i j nu lam * v lam := by
        rw [Finset.sum_comm]
        exact Finset.sum_congr rfl fun lam _ =>
          Finset.sum_congr rfl fun nu _ => by ring
    _ = ∑ lam : Fin 4,
          (∑ nu : Fin 4, gm.gcon loc i j mu nu * gm.gcov loc i j nu lam) * v lam := by
        refine Finset.sum_congr rfl fun lam _ => ?_
        rw [Finset.sum_mul]
    _ = ∑ lam : Fin 4, id4 mu lam * v lam := by
        refine Finset.sum_congr rfl fun lam _ => ?_
        rw [hinv loc i j mu lam]
    _ = v mu := by
        simp [id4, ite_mul]

/-- The flat-analytic metric is its own inverse. -/
lemma flat_metric_inverse (loc : Loci) (i j : ℤ) (mu nu : Fin 4) :
    (∑ lam : Fin 4, fastGeom.gcon loc i j mu lam * fastGeom.gcov loc i j lam nu)
      = id4 mu nu := by
  fin_cases mu <;> fin_cases nu <;>
    simp [fastGeom, gcon_fast, gcov_fast, id4, Fin.sum_univ_four] <;> norm_num

/-- Native coordinates at `k = 0` agree for two grids whose axis-1/2 arrays
agree everywhere and whose axis-3 arrays agree at index 0. -/
lemma coord_k0_congr (G H : Grid)
    (e1f : ∀ n, G.x1f n = H.x1f n) (e1v : ∀ n, G.x1v n = H.x1v n)
    (e2f : ∀ n, G.x2f n = H.x2f n) (e2v : ∀ n, G.x2v n = H.x2v n)
    (e3f : G.x3f 0 = H.x3f 0) (e3v : G.x3v 0 = H.x3v 0)
    (i j : ℤ) (loc : Loci) : G.coord i j 0 loc = H.coord i j 0 loc := by
  funext m
  cases loc <;> fin_cases m <;> simp [Grid.coord, e1f, e1v, e2f, e2v, e3f, e3v]

/-- The cache initializer depends on the grid only through the `k = 0`
native coordinates (and the extents). -/
lemma init_grids_cached_congr (cs : CoordinateEmbedding) (G H : Grid)
    (hgn1 : G.gn1 = H.gn1) (hgn2 : G.gn2 = H.gn2)
    (hc : ∀ (i j : ℤ) (loc : Loci), G.coord i j 0 loc = H.coord i j 0 loc) :
    init_grids_cached cs G = init_grids_cached cs H := by
  have h1 : init_geom_body cs G = init_geom_body cs H := by
    funext s i j
    unfold init_geom_body
    have h0 : init_geom_loc cs G i j = init_geom_loc cs H i j := by
      funext s2 loc
      unfold init_geom_loc
      rw [hc i j loc]
    rw [h0]
  have h2 : init_conn_body cs G = init_conn_body cs H := by
    funext s i j
    unfold init_conn_body
    rw [hc i j .center]
  unfold init_grids_cached
  rw [hgn1, hgn2, h1, h2]

/-! ### Concrete instances for witnesses -/

/-- A concrete collaborator: identity embedding, constant Minkowski metric,
inversion that returns its argument with unit determinant scalar (correct on
the Minkowski metric, which is its own inverse), zero connection. -/
def cs0 : CoordinateEmbedding where
  coord_to_embed := fun X => X
  gcov_native := fun _ => minkowskiDiag
  gcon_native := fun g => (g, 1)
  conn_func := fun _ _ _ _ => 0

/-- A concrete unit-spaced coordinate block. -/
def pcoord0 : Coordinates where
  x1f := fun n => n
  x2f := fun n => n
  x3f := fun n => if n = 0 then 0 else 7
  x1v := fun n => n + 1/2
  x2v := fun n => n + 1/2
  x3v := fun n => if n = 0 then 5 else 7

/-- A 1×1-zone mesh block. -/
def pmb0 : MeshBlock where
  pcoord := pcoord0
  gn1 := 1
  gn2 := 1

/-- A concrete facade built by the general constructor. -/
def G0 : Grid := Grid.mkGeneral cs0 pmb0

/-- `cs0`'s inversion is correct on every metric it is actually handed. -/
lemma cs0_inverse : ∀ (X : Vec4) (mu nu : Fin 4),
    matMul4 (cs0.gcon_native (cs0.gcov_native X)).1 (cs0.gcov_native X) mu nu
      = id4 mu nu := by
  intro X mu nu
  show matMul4 minkowskiDiag minkowskiDiag mu nu = id4 mu nu
  fin_cases mu <;> fin_cases nu <;>
    simp [matMul4, minkowskiDiag, id4, Fin.sum_univ_four] <;> norm_num

/-- A coordinate block agreeing with `pcoord0` on axes 1 and 2 everywhere
and on axis 3 only at index 0. -/
def pcoordAlt : Coordinates where
  x1f := fun n => n
  x2f := fun n => n
  x3f := fun n => if n = 0 then 0 else 77
  x1v := fun n => n + 1/2
  x2v := fun n => n + 1/2
  x3v := fun n => if n = 0 then 5 else 99

/-- A facade over `pcoordAlt` with the same extents as `G0`. -/
def GAlt : Grid := Grid.mkGeneral cs0 { pcoord := pcoordAlt, gn1 := 1, gn2 := 1 }

/-! ### Claim theorems (second group) -/

/-- C4: raising the lowered vector returns the original vector — exactly, in
the flat-analytic build, where `lower` negates only the time component (and
`raise` negates it back); and in general whenever the `gcon` accessor is the
inverse of the `gcov` accessor. -/
theorem raise_lower_round_trip :
    (∀ (v : Vec4) (i j k : ℤ) (loc : Loci) (mu : Fin 4),
      lower fastGeom v i j k loc mu = if mu = 0 then -(v 0) else v mu) ∧
    (∀ (v : Vec4) (i j k : ℤ) (loc : Loci) (mu : Fin 4),
      raise fastGeom (lower fastGeom v i j k loc) i j k loc mu = v mu) ∧
    (∀ gm : Geom,
      (∀ (loc : Loci) (i j : ℤ) (mu nu : Fin 4),
        (∑ lam : Fin 4, gm.gcon loc i j mu lam * gm.gcov loc i j lam nu)
          = id4 mu nu) →
      ∀ (v : Vec4) (i j k : ℤ) (loc : Loci) (mu : Fin 4),
        raise gm (lower gm v i j k loc) i j k loc mu = v mu) := by
  refine ⟨?_, ?_, fun gm hinv => raise_lower_of_inverse gm hinv⟩
  · intro v i j k loc mu
    rw [lower_apply]
    fin_cases mu <;>
      simp [fastGeom, gcov_fast, Fin.sum_univ_four] <;> ring
  · intro v i j k loc mu
    exact raise_lower_of_inverse fastGeom flat_metric_inverse v i j k loc mu

/-- Witness for C4's hypothesis-bearing part, at the flat accessors and a
concrete vector. -/
theorem raise_lower_round_trip_witness :
    (∀ (loc : Loci) (i j : ℤ) (mu nu : Fin 4),
      (∑ lam : Fin 4, fastGeom.gcon loc i j mu lam * fastGeom.gcov loc i j lam nu)
        = id4 mu nu) ∧
    raise fastGeom (lower fastGeom ![1, 2, 3, 4] 0 0 0 .center) 0 0 0 .center 0
      = ![1, 2, 3, 4] 0 :=
  ⟨flat_metric_inverse,
    raise_lower_round_trip.2.2 fastGeom flat_metric_inverse ![1, 2, 3, 4] 0 0 0 .center 0⟩

/-- C5: `gcon` is the matrix inverse of `gcov` — exactly in the
flat-analytic build (the Minkowski diagonal is its own inverse), and in the
cached build under the hypothesis that the collaborator's `gcon_native`
inverts the covariant metrics it is handed. -/
theorem gcon_is_inverse :
    (∀ (loc : Loci) (i j : ℤ) (mu nu : Fin 4),
      matMul4 (gcon_fast_full loc i j) (gcov_fast_full loc i j) mu nu = id4 mu nu) ∧
    (∀ (cs : CoordinateEmbedding) (G : Grid),
      (∀ (X : Vec4) (mu nu : Fin 4),
        matMul4 (cs.gcon_native (cs.gcov_native X)).1 (cs.gcov_native X) mu nu
          = id4 mu nu) →
      ∀ (loc : Loci) (i j : ℤ),
        0 ≤ i → i < (G.gn1 : ℤ) → 0 ≤ j → j < (G.gn2 : ℤ) →
        ∃ gv gc : Mat4,
          (∀ mu nu,
            (init_grids_cached cs G).gcov_arr loc i j mu nu = some (gv mu nu)) ∧
          (∀ mu nu,
            (init_grids_cached cs G).gcon_arr loc i j mu nu = some (gc mu nu)) ∧
          (∀ mu nu, matMul4 gc gv mu nu = id4 mu nu)) := by
  constructor
  · intro loc i j mu nu
    fin_cases mu <;> fin_cases nu <;>
      simp [matMul4, gcon_fast_full, gcov_fast_full, id4, Fin.sum_univ_four] <;>
        norm_num
  · intro cs G hinv loc i j h1 h2 h3 h4
    have hm : (i, j) ∈ indexPairs G.gn1 G.gn2 := mem_indexPairs.mpr ⟨h1, h2, h3, h4⟩
    exact ⟨cs.gcov_native (G.coord i j 0 loc),
      (cs.gcon_native (cs.gcov_native (G.coord i j 0 loc))).1,
      fun mu nu => init_grids_cached_gcov cs G i j hm loc mu nu,
      fun mu nu => init_grids_cached_gcon cs G i j hm loc mu nu,
      fun mu nu => hinv (G.coord i j 0 loc) mu nu⟩

/-- Witness for C5's hypothesis-bearing part, at the concrete collaborator
`cs0` and 1×1 block `G0`. -/
theorem gcon_is_inverse_witness :
    (0 : ℤ) ≤ 0 ∧ (0 : ℤ) < (G0.gn1 : ℤ) ∧
    ∃ gv gc : Mat4,
      (∀ mu nu,
        (init_grids_cached cs0 G0).gcov_arr .center 0 0 mu nu = some (gv mu nu)) ∧
      (∀ mu nu,
        (init_grids_cached cs0 G0).gcon_arr .center 0 0 mu nu = some (gc mu nu)) ∧
      (∀ mu nu, matMul4 gc gv mu nu = id4 mu nu) :=
  ⟨le_refl 0, by decide,
    gcon_is_inverse.2 cs0 G0 cs0_inverse .center 0 0
      (le_refl 0) (by decide) (le_refl 0) (by decide)⟩

/-- C7: after the one-time initializer, the cached `gcov` at `(loc,i,j)` is
the collaborator's covariant metric at `coord(i,j,0,loc)`; the cached `gcon`
and `gdet` are the inverse matrix and determinant-derived scalar from the
collaborator's inversion of that metric; and the cached `conn` is the
collaborator's connection at `coord(i,j,0,center)` only. -/
theorem cached_init_populates (cs : CoordinateEmbedding) (G : Grid) (i j : ℤ)
    (h1 : 0 ≤ i) (h2 : i < (G.gn1 : ℤ)) (h3 : 0 ≤ j) (h4 : j < (G.gn2 : ℤ)) :
    (∀ (loc : Loci) (mu nu : Fin 4),
      (init_grids_cached cs G).gcov_arr loc i j mu nu =
        some (cs.gcov_native (G.coord i j 0 loc) mu nu)) ∧
    (∀ (loc : Loci) (mu nu : Fin 4),
      (init_grids_cached cs G).gcon_arr loc i j mu nu =
        some ((cs.gcon_native (cs.gcov_native (G.coord i j 0 loc))).1 mu nu)) ∧
    (∀ loc : Loci,
      (init_grids_cached cs G).gdet_arr loc i j =
        some ((cs.gcon_native (cs.gcov_native (G.coord i j 0 loc))).2)) ∧
    (∀ mu nu lam : Fin 4,
      (init_grids_cached cs G).conn_arr i j mu nu lam =
        some (cs.conn_func (G.coord i j 0 .center) mu nu lam)) := by
  have hm : (i, j) ∈ indexPairs G.gn1 G.gn2 := mem_indexPairs.mpr ⟨h1, h2, h3, h4⟩
  exact ⟨fun loc mu nu => init_grids_cached_gcov cs G i j hm loc mu nu,
    fun loc mu nu => init_grids_cached_gcon cs G i j hm loc mu nu,
    fun loc => init_grids_cached_gdet cs G i j hm loc,
    fun mu nu lam => init_grids_cached_conn cs G i j hm mu nu lam⟩

/-- Witness for C7 at the concrete collaborator and 1×1 block. -/
theorem cached_init_populates_witness :
    ((0 : ℤ) ≤ 0 ∧ (0 : ℤ) < (G0.gn1 : ℤ)) ∧
    (init_grids_cached cs0 G0).gdet_arr .center 0 0 =
      some ((cs0.gcon_native (cs0.gcov_native (G0.coord 0 0 0 .center))).2) :=
  ⟨⟨le_refl 0, by decide⟩,
    (cached_init_populates cs0 G0 0 0 (le_refl 0) (by decide)
      (le_refl 0) (by decide)).2.2.1 .center⟩

/-- C8 (code evaluation at the failing input): the cached build returns the
collaborator-derived metric component, while the `NO_CACHE` build's accessor
— reading storage that build neither declares nor initializes — yields no
value; the two strategies are not observably equivalent in the code as
written. -/
theorem direct_cached_not_equivalent :
    (init_grids_cached cs0 G0).gcov_arr .center 0 0 0 0 = some (-1) ∧
    gcov_nocache nocacheStorage .center 0 0 0 0 = none ∧
    ((init_grids_cached cs0 G0).gcov_arr .center 0 0 0 0 ==
      gcov_nocache nocacheStorage .center 0 0 0 0) = false := by
  have h := init_grids_cached_gcov cs0 G0 0 0 (by decide) .center 0 0
  rw [h]
  refine ⟨by decide, rfl, by decide⟩

/-- C9: every metric accessor is indexed by the first two axes only; `lower`
and `raise` ignore their `k` argument entirely; and the cache initializer
evaluates native coordinates only at `k = 0`, so the filled cache is
unchanged by any modification of the axis-3 arrays away from index 0. -/
theorem third_axis_independence :
    (∀ (gm : Geom) (v : Vec4) (i j k k2 : ℤ) (loc : Loci),
      lower gm v i j k loc = lower gm v i j k2 loc) ∧
    (∀ (gm : Geom) (v : Vec4) (i j k k2 : ℤ) (loc : Loci),
      raise gm v i j k loc = raise gm v i j k2 loc) ∧
    (∀ (cs : CoordinateEmbedding) (G H : Grid),
      G.gn1 = H.gn1 → G.gn2 = H.gn2 →
      (∀ n, G.x1f n = H.x1f n) → (∀ n, G.x1v n = H.x1v n) →
      (∀ n, G.x2f n = H.x2f n) → (∀ n, G.x2v n = H.x2v n) →
      G.x3f 0 = H.x3f 0 → G.x3v 0 = H.x3v 0 →
      init_grids_cached cs G = init_grids_cached cs H) := by
  refine ⟨fun gm v i j k k2 loc => rfl, fun gm v i j k k2 loc => rfl, ?_⟩
  intro cs G H hgn1 hgn2 e1f e1v e2f e2v e3f e3v
  exact init_grids_cached_congr cs G H hgn1 hgn2
    (coord_k0_congr G H e1f e1v e2f e2v e3f e3v)

/-- Witness for C9's hypothesis-bearing part: two concrete grids whose
axis-3 arrays differ everywhere except index 0 produce identical caches. -/
theorem third_axis_independence_witness :
    (G0.gn1 = GAlt.gn1 ∧ G0.x3v 0 = GAlt.x3v 0 ∧ G0.x3v 1 ≠ GAlt.x3v 1) ∧
    init_grids_cached cs0 G0 = init_grids_cached cs0 GAlt :=
  ⟨⟨rfl, by decide, by decide⟩,
    third_axis_independence.2.2 cs0 G0 GAlt rfl rfl
      (fun n => rfl) (fun n => rfl) (fun n => rfl) (fun n => rfl)
      (by decide) (by decide)⟩

end Kharma
